import Mathlib

/-!
Shallow embedding of `src/crates/roea-agent/src/bpf/process_monitor.bpf.c`.

The BPF program defines four tracepoint handlers (`handle_exec`, `handle_exit`,
`handle_connect`, `handle_openat`), three fixed-layout event records
(`process_event`, `network_event`, `file_event`) and a helper `get_ppid`.

Modelling choices:
- Machine integers are `Nat` (unsigned) or `Int` (the C `int` fields), with
  explicit `% 2^w` reductions where the C code performs a width conversion.
- The ambient kernel state read through BPF helpers (`bpf_get_current_pid_tgid`,
  `bpf_get_current_uid_gid`, `bpf_ktime_get_ns`, `bpf_get_current_comm`,
  `bpf_get_current_task` / `BPF_CORE_READ`) is an explicit `TaskCtx` record
  passed to each handler.
- Caller-space reads (`bpf_probe_read_user`, `bpf_probe_read_user_str`,
  `bpf_probe_read_str`) are fallible: each read outcome is an `Option` field of
  the per-handler context record.  `none` models a faulting read; the BPF
  helpers zero-fill the destination buffer on fault, so a failed read yields
  the zero value / empty string in the model, exactly as in the kernel.
- C char buffers are modelled by the string value they hold: the list of bytes
  strictly before the terminating NUL.  The bounded copy helpers truncate to
  capacity minus one, leaving room for the terminator.
- The ring buffer is abstracted by a `reserve_ok : Bool` input (whether
  `bpf_ringbuf_reserve` returned a slot).  A handler result records the C
  return value, whether a reservation was attempted, and the record submitted
  by `bpf_ringbuf_submit` (if any).
-/

/-- Constant `MAX_COMM_LEN` from the C source. -/
def MAX_COMM_LEN : Nat := 256

/-- Constant `MAX_FILENAME_LEN` from the C source. -/
def MAX_FILENAME_LEN : Nat := 256

/-- Constant `MAX_PATH_LEN` from the C source. -/
def MAX_PATH_LEN : Nat := 256

/-- Event type tag `EVENT_PROCESS_EXEC`. -/
def EVENT_PROCESS_EXEC : Nat := 1

/-- Event type tag `EVENT_PROCESS_EXIT`. -/
def EVENT_PROCESS_EXIT : Nat := 2

/-- Event type tag `EVENT_NETWORK_CONNECT`. -/
def EVENT_NETWORK_CONNECT : Nat := 3

/-- Event type tag `EVENT_FILE_OPEN`. -/
def EVENT_FILE_OPEN : Nat := 4

/-- Address family `AF_UNIX` (socket.h value 1). -/
def AF_UNIX : Nat := 1

/-- Address family `AF_INET` (socket.h value 2). -/
def AF_INET : Nat := 2

/-- Address family `AF_INET6` (socket.h value 10). -/
def AF_INET6 : Nat := 10

/-- Reduction of a `Nat` to the value of a C `u64`. -/
def u64 (n : Nat) : Nat := n % 2 ^ 64

/-- Reduction of a `Nat` to the value of a C `u32`. -/
def u32 (n : Nat) : Nat := n % 2 ^ 32

/-- Reduction of a `Nat` to the value of a C `u16`. -/
def u16 (n : Nat) : Nat := n % 2 ^ 16

/-- Reinterpretation of the low 32 bits of a `Nat` as a signed C `int`,
as performed by the `(int)ctx->args[k]` casts in `handle_openat`. -/
def toInt32 (n : Nat) : Int :=
  let m : Nat := n % 2 ^ 32
  if m < 2 ^ 31 then (m : Int) else (m : Int) - 2 ^ 32

/-- Content of a C string buffer: the bytes strictly before the first NUL. -/
def strUpToNul (src : List Nat) : List Nat :=
  src.takeWhile (fun b => b != 0)

/-- Value stored by a bounded NUL-terminated string copy into a buffer of
capacity `cap` (`bpf_probe_read_str` / `bpf_probe_read_user_str` /
`bpf_get_current_comm` all truncate to `cap - 1` content bytes and write a
terminating NUL). -/
def str_read_val (cap : Nat) (src : List Nat) : List Nat :=
  (strUpToNul src).take (cap - 1)

/-- Value stored by a fallible bounded string read: on fault (`none`) the BPF
helper zero-fills the destination, so the stored string value is empty. -/
def str_read_user (cap : Nat) (r : Option (List Nat)) : List Nat :=
  match r with
  | some s => str_read_val cap s
  | none => []

/-- Ambient kernel state visible to a handler through BPF helpers:
`pid_tgid` and `uid_gid` are the `u64` helper results, `ktime_ns` the
monotonic clock, `comm` the current task short name buffer, `real_parent`
the parent task `tgid` read via `BPF_CORE_READ` (`none` models a NULL
`real_parent` pointer), and `exit_code` the `task->exit_code` field. -/
structure TaskCtx where
  pid_tgid : Nat
  uid_gid : Nat
  ktime_ns : Nat
  comm : List Nat
  real_parent : Option Nat
  exit_code : Int
deriving Repr, DecidableEq

/-- Embedding of `get_ppid`: read `task->real_parent`; if non-NULL, read the
parent `tgid` (a 32-bit id), else 0. -/
def get_ppid (t : TaskCtx) : Nat :=
  match t.real_parent with
  | some tgid => u32 tgid
  | none => 0

/-- Embedding of `struct process_event`.  `comm` and `filename` hold the
string values stored in the 256-byte buffers. -/
structure process_event where
  event_type : Nat
  pid : Nat
  ppid : Nat
  uid : Nat
  gid : Nat
  timestamp_ns : Nat
  comm : List Nat
  filename : List Nat
  exit_code : Int
deriving Repr, DecidableEq

/-- Embedding of `struct network_event`.  `addr_v6` holds the 16 bytes of the
`u8 addr_v6[16]` array. -/
structure network_event where
  event_type : Nat
  pid : Nat
  uid : Nat
  timestamp_ns : Nat
  comm : List Nat
  family : Nat
  port : Nat
  addr_v4 : Nat
  addr_v6 : List Nat
deriving Repr, DecidableEq

/-- Embedding of `struct file_event`. -/
structure file_event where
  event_type : Nat
  pid : Nat
  uid : Nat
  timestamp_ns : Nat
  comm : List Nat
  path : List Nat
  flags : Int
  dirfd : Int
deriving Repr, DecidableEq

/-- Result of one handler invocation: `ret` is the value returned to the
kernel, `reserved` records whether `bpf_ringbuf_reserve` was called, and
`published` is the record passed to `bpf_ringbuf_submit` (if any). -/
structure HResult (α : Type) where
  ret : Int
  reserved : Bool
  published : Option α
deriving Repr, DecidableEq

/-- Per-invocation inputs of `handle_exec` beyond the task state: the outcome
of the `bpf_probe_read_str` of the executed filename at
`(void *)ctx + filename_loc` (`none` models a faulting read). -/
structure ExecCtx where
  filename_read : Option (List Nat)
deriving Repr, DecidableEq

/-- Fill section of `handle_exec` (lines between reserve and submit):
pid/ppid/uid/gid, timestamp, `exit_code = 0`, `comm` via
`bpf_get_current_comm`, `filename` via `bpf_probe_read_str` from the exec
tracepoint context at `__data_loc_filename`. -/
def exec_fill (t : TaskCtx) (e : ExecCtx) : process_event :=
  { event_type := EVENT_PROCESS_EXEC
    pid := u64 t.pid_tgid / 2 ^ 32
    ppid := get_ppid t
    uid := u32 t.uid_gid
    gid := u64 t.uid_gid / 2 ^ 32
    timestamp_ns := u64 t.ktime_ns
    comm := str_read_val MAX_COMM_LEN t.comm
    filename := str_read_user MAX_FILENAME_LEN e.filename_read
    exit_code := 0 }

/-- Embedding of `handle_exec`: reserve a `process_event` slot (drop and
return 0 on failure), fill it, submit, return 0. -/
def handle_exec (t : TaskCtx) (e : ExecCtx) (reserve_ok : Bool) :
    HResult process_event :=
  if !reserve_ok then ⟨0, true, none⟩
  else ⟨0, true, some (exec_fill t e)⟩

/-- Fill section of `handle_exit`: identity fields, `filename[0] = NUL`
(empty string value), `exit_code` read from `task->exit_code` via
`BPF_CORE_READ`. -/
def exit_fill (t : TaskCtx) : process_event :=
  { event_type := EVENT_PROCESS_EXIT
    pid := u64 t.pid_tgid / 2 ^ 32
    ppid := get_ppid t
    uid := u32 t.uid_gid
    gid := u64 t.uid_gid / 2 ^ 32
    timestamp_ns := u64 t.ktime_ns
    comm := str_read_val MAX_COMM_LEN t.comm
    filename := []
    exit_code := t.exit_code }

/-- Embedding of `handle_exit`: reserve a `process_event` slot (drop and
return 0 on failure), fill it, submit, return 0. -/
def handle_exit (t : TaskCtx) (reserve_ok : Bool) : HResult process_event :=
  if !reserve_ok then ⟨0, true, none⟩
  else ⟨0, true, some (exit_fill t)⟩

/-- Embedding of `struct sockaddr_in` as read into the handler stack:
`sin_port` and `sin_addr.s_addr` hold the 16- and 32-bit field values as
stored in caller memory (network byte order preserved). -/
structure sockaddr_in where
  sin_port : Nat
  sin_addr : Nat
deriving Repr, DecidableEq

/-- Embedding of `struct sockaddr_in6` as read into the handler stack. -/
structure sockaddr_in6 where
  sin6_port : Nat
  sin6_addr : List Nat
deriving Repr, DecidableEq

/-- Per-invocation inputs of `handle_connect`: `addr_ptr` is the `u64` value
of `ctx->args[1]` (the caller-space `sockaddr` pointer; 0 is NULL);
`fam_read`, `in_read`, `in6_read` are the outcomes of the
`bpf_probe_read_user` calls for the family probe and the fixed-size IPv4
and IPv6 structures (`none` models a fault, in which case the helper
zero-fills the destination); `in6_addr_read` is the outcome of the nested
16-byte read targeting `event->addr_v6`. -/
structure ConnectCtx where
  addr_ptr : Nat
  fam_read : Option Nat
  in_read : Option sockaddr_in
  in6_read : Option sockaddr_in6
  in6_addr_read : Option (List Nat)
deriving Repr, DecidableEq

/-- Value of the `family` local of `handle_connect` after the
`bpf_probe_read_user` family probe: the `u16` read from
`&addr->sa_family`, or 0 when the read faults (zero-filled destination). -/
def connFamily (c : ConnectCtx) : Nat := u16 (c.fam_read.getD 0)

/-- Fill section of `handle_connect` before the address dispatch: identity
fields, `family`, and the port/address fields zero-initialized (lines
226-239 of the C source). -/
def connect_base (t : TaskCtx) (c : ConnectCtx) : network_event :=
  { event_type := EVENT_NETWORK_CONNECT
    pid := u64 t.pid_tgid / 2 ^ 32
    uid := u32 t.uid_gid
    timestamp_ns := u64 t.ktime_ns
    comm := str_read_val MAX_COMM_LEN t.comm
    family := connFamily c
    port := 0
    addr_v4 := 0
    addr_v6 := List.replicate 16 0 }

/-- Address dispatch of `handle_connect` (the `if (family == ...)` chain over
the zero-initialized record): AF_INET reads a `sockaddr_in` (zero-filled on
fault) and copies `sin_port` / `sin_addr.s_addr` verbatim; AF_INET6 reads a
`sockaddr_in6` (zero-filled on fault), copies `sin6_port`, and fills
`addr_v6` from the nested 16-byte read (zero-filled on fault); any other
family (AF_UNIX) leaves port and both address fields zero. -/
def connect_fill (t : TaskCtx) (c : ConnectCtx) : network_event :=
  if connFamily c = AF_INET then
    { connect_base t c with
        port := (c.in_read.getD ⟨0, 0⟩).sin_port
        addr_v4 := (c.in_read.getD ⟨0, 0⟩).sin_addr }
  else if connFamily c = AF_INET6 then
    { connect_base t c with
        port := (c.in6_read.getD ⟨0, List.replicate 16 0⟩).sin6_port
        addr_v6 := c.in6_addr_read.getD (List.replicate 16 0) }
  else connect_base t c

/-- Embedding of `handle_connect`: return 0 at once if the sockaddr pointer is
NULL; read the family; return 0 without reserving when the family is not
one of AF_INET / AF_INET6 / AF_UNIX; otherwise reserve a `network_event`
slot (drop and return 0 on failure), fill it, submit, return 0. -/
def handle_connect (t : TaskCtx) (c : ConnectCtx) (reserve_ok : Bool) :
    HResult network_event :=
  if u64 c.addr_ptr = 0 then ⟨0, false, none⟩
  else if connFamily c ≠ AF_INET ∧ connFamily c ≠ AF_INET6 ∧
      connFamily c ≠ AF_UNIX then ⟨0, false, none⟩
  else if !reserve_ok then ⟨0, true, none⟩
  else ⟨0, true, some (connect_fill t c)⟩

/-- Per-invocation inputs of `handle_openat`: `arg0`, `arg1`, `arg2` are the
`u64` values of `ctx->args[0..2]` (`dirfd`, the caller-space pathname
pointer, `flags`); `path_read` is the outcome of the
`bpf_probe_read_user_str` of the pathname (`none` models a fault). -/
structure OpenatCtx where
  arg0 : Nat
  arg1 : Nat
  arg2 : Nat
  path_read : Option (List Nat)
deriving Repr, DecidableEq

/-- Fill section of `handle_openat`: identity fields, `dirfd` and `flags` by
casting the raw syscall arguments to `int`, `path` via a bounded NUL-safe
user-space read when the pointer is non-NULL (empty string on NULL pointer
or faulting read). -/
def openat_fill (t : TaskCtx) (o : OpenatCtx) : file_event :=
  { event_type := EVENT_FILE_OPEN
    pid := u64 t.pid_tgid / 2 ^ 32
    uid := u32 t.uid_gid
    timestamp_ns := u64 t.ktime_ns
    comm := str_read_val MAX_COMM_LEN t.comm
    path :=
      if u64 o.arg1 = 0 then []
      else str_read_user MAX_PATH_LEN o.path_read
    flags := toInt32 o.arg2
    dirfd := toInt32 o.arg0 }

/-- Embedding of `handle_openat`: reserve a `file_event` slot (drop and return
0 on failure), fill it, submit, return 0. -/
def handle_openat (t : TaskCtx) (o : OpenatCtx) (reserve_ok : Bool) :
    HResult file_event :=
  if !reserve_ok then ⟨0, true, none⟩
  else ⟨0, true, some (openat_fill t o)⟩

/-- Concrete task state for scenario checks: a process named "sh" (bytes 115,
104), pid 7, parent pid 100, uid and gid 1000, clock at 42 ns. -/
def tSh : TaskCtx :=
  { pid_tgid := 7 * 2 ^ 32 + 7
    uid_gid := 1000 * 2 ^ 32 + 1000
    ktime_ns := 42
    comm := [115, 104, 0]
    real_parent := some 100
    exit_code := 0 }

/-- Concrete task state of a process exiting with reported status 1. -/
def tExit1 : TaskCtx := { tSh with exit_code := 1 }

/-- Bytes of the path "/usr/bin/sh". -/
def srcSh : List Nat := [47, 117, 115, 114, 47, 98, 105, 110, 47, 115, 104]

/-- Exec context whose filename read yields "/usr/bin/sh". -/
def eSh : ExecCtx := ⟨some srcSh⟩

/-- Connect context: AF_UNIX sockaddr at a non-NULL pointer. -/
def cUnixW : ConnectCtx := ⟨1, some 1, none, none, none⟩

/-- Connect context: AF_INET sockaddr carrying port 443 in network byte order
(bytes 0x01 0xBB, little-endian value 47873) and address 10.0.0.5 packed in
network byte order (bytes 10 0 0 5, little-endian value 83886090). -/
def cInetW : ConnectCtx := ⟨1, some 2, some ⟨47873, 83886090⟩, none, none⟩

/-- Connect context with an untracked address family (3 = AF_AX25). -/
def cBadW : ConnectCtx := ⟨1, some 3, none, none, none⟩

/-- Connect context with a NULL sockaddr pointer. -/
def cNullW : ConnectCtx := ⟨0, some 2, none, none, none⟩

/-- Connect context: AF_INET family probe succeeds but the sockaddr_in read
faults. -/
def cFailW : ConnectCtx := ⟨1, some 2, none, none, none⟩

/-- Openat context: dirfd 3, non-NULL pathname pointer whose read yields
"config.json", flags 0 (O_RDONLY). -/
def oW : OpenatCtx :=
  ⟨3, 5, 0, some [99, 111, 110, 102, 105, 103, 46, 106, 115, 111, 110]⟩

/-- Source buffer longer than every destination buffer: 300 times byte 65. -/
def src300 : List Nat := List.replicate 300 65

theorem str_read_val_length_lt (cap : Nat) (src : List Nat) (h : 0 < cap) :
    (str_read_val cap src).length < cap := by
  have hle : (str_read_val cap src).length ≤ cap - 1 := by
    rw [str_read_val, List.length_take]
    exact Nat.min_le_left _ _
  omega

theorem str_read_user_length_lt (cap : Nat) (r : Option (List Nat))
    (h : 0 < cap) : (str_read_user cap r).length < cap := by
  cases r with
  | none =>
      simp only [str_read_user, List.length_nil]
      exact h
  | some s => exact str_read_val_length_lt cap s h

theorem handle_connect_published_inv (t : TaskCtx) (c : ConnectCtx) (r : Bool)
    (ev : network_event) (h : (handle_connect t c r).published = some ev) :
    ev = connect_fill t c ∧
    (connFamily c = AF_INET ∨ connFamily c = AF_INET6 ∨
      connFamily c = AF_UNIX) := by
  unfold handle_connect at h
  by_cases hptr : u64 c.addr_ptr = 0
  · rw [if_pos hptr] at h
    simp at h
  · rw [if_neg hptr] at h
    by_cases hflt : connFamily c ≠ AF_INET ∧ connFamily c ≠ AF_INET6 ∧
        connFamily c ≠ AF_UNIX
    · rw [if_pos hflt] at h
      simp at h
    · rw [if_neg hflt] at h
      by_cases hr : (!r) = true
      · rw [if_pos hr] at h
        simp at h
      · rw [if_neg hr] at h
        have h2 : connect_fill t c = ev := by simpa using h
        refine ⟨h2.symm, ?_⟩
        simp only [AF_INET, AF_INET6, AF_UNIX] at hflt ⊢
        omega

theorem connect_fill_family (t : TaskCtx) (c : ConnectCtx) :
    (connect_fill t c).family = connFamily c := by
  unfold connect_fill
  split
  · rfl
  · split <;> rfl

theorem connect_fill_addr_cases (t : TaskCtx) (c : ConnectCtx) :
    (connFamily c = AF_INET →
      (connect_fill t c).addr_v6 = List.replicate 16 0) ∧
    (connFamily c = AF_INET6 → (connect_fill t c).addr_v4 = 0) ∧
    (connFamily c ≠ AF_INET → connFamily c ≠ AF_INET6 →
      (connect_fill t c).port = 0 ∧ (connect_fill t c).addr_v4 = 0 ∧
      (connect_fill t c).addr_v6 = List.replicate 16 0) := by
  refine ⟨?_, ?_, ?_⟩
  · intro h1
    unfold connect_fill
    rw [if_pos h1]
    rfl
  · intro h1
    unfold connect_fill
    rw [if_neg (by rw [h1]; decide), if_pos h1]
    rfl
  · intro h1 h2
    unfold connect_fill
    rw [if_neg h1, if_neg h2]
    exact ⟨rfl, rfl, rfl⟩

/-- C1: every hook handler (`handle_exec`, `handle_exit`, `handle_connect`,
`handle_openat`) returns 0 to the kernel on every execution path, and when
the ring-buffer reservation fails the event is dropped: nothing is
published. -/
theorem C1_handlers_return_zero_and_drop_on_reserve_failure
    (t : TaskCtx) (e : ExecCtx) (c : ConnectCtx) (o : OpenatCtx) (r : Bool) :
    (handle_exec t e r).ret = 0 ∧ (handle_exec t e false).published = none ∧
    (handle_exit t r).ret = 0 ∧ (handle_exit t false).published = none ∧
    (handle_connect t c r).ret = 0 ∧
    (handle_connect t c false).published = none ∧
    (handle_openat t o r).ret = 0 ∧
    (handle_openat t o false).published = none := by
  refine ⟨?_, ?_, ?_, ?_, ?_, ?_, ?_, ?_⟩
  · unfold handle_exec
    split <;> rfl
  · rfl
  · unfold handle_exit
    split <;> rfl
  · rfl
  · unfold handle_connect
    split
    · rfl
    · split
      · rfl
      · split <;> rfl
  · unfold handle_connect
    split
    · rfl
    · split <;> rfl
  · unfold handle_openat
    split <;> rfl
  · rfl

/-- C2: `handle_connect` filters untracked address families before reserving:
when the family read from the caller-space sockaddr is none of AF_INET,
AF_INET6, AF_UNIX, the handler returns 0 without calling
`bpf_ringbuf_reserve` and publishes nothing; and every published
`network_event` carries one of the three tracked families. -/
theorem C2_untracked_family_filtered_before_reserve
    (t : TaskCtx) (c : ConnectCtx) (r : Bool) :
    (connFamily c ≠ AF_INET ∧ connFamily c ≠ AF_INET6 ∧
        connFamily c ≠ AF_UNIX →
      handle_connect t c r = ⟨0, false, none⟩) ∧
    (∀ ev, (handle_connect t c r).published = some ev →
      ev.family = AF_INET ∨ ev.family = AF_INET6 ∨ ev.family = AF_UNIX) := by
  constructor
  · intro hfam
    unfold handle_connect
    split <;> rfl
  · intro ev hev
    obtain ⟨rfl, hfams⟩ := handle_connect_published_inv t c r ev hev
    rw [connect_fill_family t c]
    exact hfams

/-- C2 witness: a connect with address family 3 (AF_AX25) at a non-NULL
sockaddr pointer yields return value 0, no reservation, no publication. -/
theorem C2_witness : handle_connect tSh cBadW true = ⟨0, false, none⟩ :=
  (C2_untracked_family_filtered_before_reserve tSh cBadW true).1 (by decide)

/-- C3: for every published `network_event`, the family selects the meaningful
address field: AF_INET records have all-zero `addr_v6`, AF_INET6 records
have zero `addr_v4`, and AF_UNIX records have zero `port`, `addr_v4` and
`addr_v6`. -/
theorem C3_family_selects_address_field (t : TaskCtx) (c : ConnectCtx)
    (r : Bool) (ev : network_event)
    (h : (handle_connect t c r).published = some ev) :
    (ev.family = AF_INET → ev.addr_v6 = List.replicate 16 0) ∧
    (ev.family = AF_INET6 → ev.addr_v4 = 0) ∧
    (ev.family = AF_UNIX → ev.port = 0 ∧ ev.addr_v4 = 0 ∧
      ev.addr_v6 = List.replicate 16 0) := by
  obtain ⟨rfl, _⟩ := handle_connect_published_inv t c r ev h
  have hf := connect_fill_family t c
  have hc := connect_fill_addr_cases t c
  refine ⟨?_, ?_, ?_⟩
  · intro h1
    rw [hf] at h1
    exact hc.1 h1
  · intro h1
    rw [hf] at h1
    exact hc.2.1 h1
  · intro h1
    rw [hf] at h1
    refine hc.2.2 ?_ ?_
    · rw [h1]
      decide
    · rw [h1]
      decide

/-- C3 witness: the record published for an AF_UNIX connect satisfies all
three family-selection implications. -/
theorem C3_witness :
    ((connect_fill tSh cUnixW).family = AF_INET →
      (connect_fill tSh cUnixW).addr_v6 = List.replicate 16 0) ∧
    ((connect_fill tSh cUnixW).family = AF_INET6 →
      (connect_fill tSh cUnixW).addr_v4 = 0) ∧
    ((connect_fill tSh cUnixW).family = AF_UNIX →
      (connect_fill tSh cUnixW).port = 0 ∧
      (connect_fill tSh cUnixW).addr_v4 = 0 ∧
      (connect_fill tSh cUnixW).addr_v6 = List.replicate 16 0) :=
  C3_family_selects_address_field tSh cUnixW true (connect_fill tSh cUnixW)
    rfl

/-- C4: every `process_event` published by `handle_exit` has
`event_type = EVENT_PROCESS_EXIT`, an empty `filename`, and `exit_code`
equal to the exit status reported by the terminating task. -/
theorem C4_exit_event_shape (t : TaskCtx) (r : Bool) (ev : process_event)
    (h : (handle_exit t r).published = some ev) :
    ev.event_type = EVENT_PROCESS_EXIT ∧ ev.filename = [] ∧
    ev.exit_code = t.exit_code := by
  unfold handle_exit at h
  by_cases hr : (!r) = true
  · rw [if_pos hr] at h
    simp at h
  · rw [if_neg hr] at h
    have h2 : exit_fill t = ev := by simpa using h
    subst h2
    exact ⟨rfl, rfl, rfl⟩

/-- C4 witness: a task exiting with reported status 1 yields a record with
`event_type = EVENT_PROCESS_EXIT`, empty `filename` and `exit_code = 1`. -/
theorem C4_witness :
    (exit_fill tExit1).event_type = EVENT_PROCESS_EXIT ∧
    (exit_fill tExit1).filename = [] ∧
    (exit_fill tExit1).exit_code = tExit1.exit_code ∧
    (exit_fill tExit1).exit_code = 1 := by
  have h := C4_exit_event_shape tExit1 true (exit_fill tExit1) rfl
  exact ⟨h.1, h.2.1, h.2.2, by decide⟩

/-- C5: every `process_event` published by a successful `handle_exec` has
`event_type = EVENT_PROCESS_EXEC`, `exit_code = 0`, `comm` equal to the
bounded copy of the current task short name, `filename` equal to the
bounded NUL-safe read of the executed image path from the exec context,
and `ppid` computed by `get_ppid` (the immediate parent id, 0 if no parent
is resolvable). -/
theorem C5_exec_event_fields (t : TaskCtx) (e : ExecCtx) (src : List Nat)
    (ev : process_event) (hread : e.filename_read = some src)
    (h : (handle_exec t e true).published = some ev) :
    ev.event_type = EVENT_PROCESS_EXEC ∧ ev.exit_code = 0 ∧
    ev.comm = str_read_val MAX_COMM_LEN t.comm ∧
    ev.filename = str_read_val MAX_FILENAME_LEN src ∧
    ev.ppid = get_ppid t := by
  have h2 : exec_fill t e = ev := by simpa [handle_exec] using h
  subst h2
  refine ⟨rfl, rfl, rfl, ?_, rfl⟩
  simp [exec_fill, str_read_user, hread]

/-- C5 witness: a process named "sh" (comm bytes 115, 104) with parent pid
100 execs "/usr/bin/sh"; the published record has `comm = "sh"`,
`filename = "/usr/bin/sh"`, `exit_code = 0`, `ppid = 100` (and pid 7). -/
theorem C5_witness :
    (exec_fill tSh eSh).event_type = EVENT_PROCESS_EXEC ∧
    (exec_fill tSh eSh).exit_code = 0 ∧
    (exec_fill tSh eSh).comm = str_read_val MAX_COMM_LEN tSh.comm ∧
    (exec_fill tSh eSh).filename = str_read_val MAX_FILENAME_LEN srcSh ∧
    (exec_fill tSh eSh).ppid = get_ppid tSh ∧
    (exec_fill tSh eSh).comm = [115, 104] ∧
    (exec_fill tSh eSh).filename = srcSh ∧
    (exec_fill tSh eSh).ppid = 100 ∧
    (exec_fill tSh eSh).pid = 7 := by
  have h := C5_exec_event_fields tSh eSh srcSh (exec_fill tSh eSh) rfl rfl
  exact ⟨h.1, h.2.1, h.2.2.1, h.2.2.2.1, h.2.2.2.2, by decide, by decide,
    by decide, by decide⟩

/-- C6: for every published `network_event` with family AF_INET, `port` and
`addr_v4` are copied verbatim from the `sin_port` and `sin_addr.s_addr`
fields of the caller sockaddr_in, with no byte-order conversion. -/
theorem C6_inet_fields_copied_verbatim (t : TaskCtx) (c : ConnectCtx)
    (r : Bool) (sa : sockaddr_in) (ev : network_event)
    (hfam : connFamily c = AF_INET) (hread : c.in_read = some sa)
    (h : (handle_connect t c r).published = some ev) :
    ev.family = AF_INET ∧ ev.port = sa.sin_port ∧
    ev.addr_v4 = sa.sin_addr := by
  obtain ⟨rfl, _⟩ := handle_connect_published_inv t c r ev h
  unfold connect_fill
  rw [if_pos hfam, hread]
  exact ⟨hfam, rfl, rfl⟩

/-- C6 witness: a connect to 10.0.0.5:443 over AF_INET (sin_port bytes 0x01
0xBB, value 47873; s_addr bytes 10 0 0 5, value 83886090) yields a record
with exactly those field values. -/
theorem C6_witness :
    (connect_fill tSh cInetW).family = AF_INET ∧
    (connect_fill tSh cInetW).port = 47873 ∧
    (connect_fill tSh cInetW).addr_v4 = 83886090 := by
  have h := C6_inet_fields_copied_verbatim tSh cInetW true ⟨47873, 83886090⟩
    (connect_fill tSh cInetW) (by decide) rfl rfl
  exact ⟨h.1, h.2.1, h.2.2⟩

/-- C7: when the caller-space sockaddr structure read faults, the affected
port/address fields keep their zero values and `handle_connect` still
publishes the record and returns 0 (for both the AF_INET and the AF_INET6
dispatch arms). -/
theorem C7_sockaddr_read_failure_degrades_to_zero (t : TaskCtx)
    (c : ConnectCtx) (hptr : u64 c.addr_ptr ≠ 0) :
    (connFamily c = AF_INET → c.in_read = none →
      (handle_connect t c true).ret = 0 ∧
      (handle_connect t c true).published = some (connect_fill t c) ∧
      (connect_fill t c).port = 0 ∧ (connect_fill t c).addr_v4 = 0) ∧
    (connFamily c = AF_INET6 → c.in6_read = none → c.in6_addr_read = none →
      (handle_connect t c true).ret = 0 ∧
      (handle_connect t c true).published = some (connect_fill t c) ∧
      (connect_fill t c).port = 0 ∧
      (connect_fill t c).addr_v6 = List.replicate 16 0) := by
  constructor
  · intro hfam hread
    have hflt : ¬(connFamily c ≠ AF_INET ∧ connFamily c ≠ AF_INET6 ∧
        connFamily c ≠ AF_UNIX) := by
      rw [hfam]
      decide
    refine ⟨?_, ?_, ?_, ?_⟩
    · unfold handle_connect
      rw [if_neg hptr, if_neg hflt]
      rfl
    · unfold handle_connect
      rw [if_neg hptr, if_neg hflt]
      rfl
    · unfold connect_fill
      rw [if_pos hfam, hread]
      rfl
    · unfold connect_fill
      rw [if_pos hfam, hread]
      rfl
  · intro hfam hread6 hreadA
    have hflt : ¬(connFamily c ≠ AF_INET ∧ connFamily c ≠ AF_INET6 ∧
        connFamily c ≠ AF_UNIX) := by
      rw [hfam]
      decide
    have hne : connFamily c ≠ AF_INET := by
      rw [hfam]
      decide
    refine ⟨?_, ?_, ?_, ?_⟩
    · unfold handle_connect
      rw [if_neg hptr, if_neg hflt]
      rfl
    · unfold handle_connect
      rw [if_neg hptr, if_neg hflt]
      rfl
    · unfold connect_fill
      rw [if_neg hne, if_pos hfam, hread6]
      rfl
    · unfold connect_fill
      rw [if_neg hne, if_pos hfam, hreadA]
      rfl

/-- C7 witness: an AF_INET connect whose sockaddr_in read faults still
publishes a record, returns 0, and the record carries `port = 0` and
`addr_v4 = 0`. -/
theorem C7_witness :
    (handle_connect tSh cFailW true).ret = 0 ∧
    (handle_connect tSh cFailW true).published =
      some (connect_fill tSh cFailW) ∧
    (connect_fill tSh cFailW).port = 0 ∧
    (connect_fill tSh cFailW).addr_v4 = 0 :=
  (C7_sockaddr_read_failure_degrades_to_zero tSh cFailW (by decide)).1
    (by decide) rfl

/-- C8: every successful `handle_openat` invocation returns 0 and publishes a
record whose `dirfd` and `flags` are the raw syscall arguments cast to
`int` with no validation, and whose `path` is the bounded NUL-safe read of
the caller pathname: empty when the pointer is NULL or the read faults,
else the truncated string. -/
theorem C8_openat_records_raw_args (t : TaskCtx) (o : OpenatCtx) :
    (handle_openat t o true).ret = 0 ∧
    (handle_openat t o true).published = some (openat_fill t o) ∧
    (openat_fill t o).dirfd = toInt32 o.arg0 ∧
    (openat_fill t o).flags = toInt32 o.arg2 ∧
    (u64 o.arg1 = 0 → (openat_fill t o).path = []) ∧
    (o.path_read = none → (openat_fill t o).path = []) ∧
    (∀ src, o.path_read = some src → u64 o.arg1 ≠ 0 →
      (openat_fill t o).path = str_read_val MAX_PATH_LEN src) := by
  refine ⟨rfl, rfl, rfl, rfl, ?_, ?_, ?_⟩
  · intro h1
    show (if u64 o.arg1 = 0 then []
      else str_read_user MAX_PATH_LEN o.path_read) = []
    rw [if_pos h1]
  · intro h1
    show (if u64 o.arg1 = 0 then []
      else str_read_user MAX_PATH_LEN o.path_read) = []
    by_cases h2 : u64 o.arg1 = 0
    · rw [if_pos h2]
    · rw [if_neg h2, h1]
      rfl
  · intro src h1 h2
    show (if u64 o.arg1 = 0 then []
      else str_read_user MAX_PATH_LEN o.path_read) =
      str_read_val MAX_PATH_LEN src
    rw [if_neg h2, h1]
    rfl

/-- C8 witness: opening "config.json" (bytes 99 111 110 102 105 103 46 106
115 111 110) with `dirfd = 3` and flags 0 (O_RDONLY) yields a record with
the path unchanged, `dirfd = 3` and `flags = 0`. -/
theorem C8_witness :
    (handle_openat tSh oW true).ret = 0 ∧
    (handle_openat tSh oW true).published = some (openat_fill tSh oW) ∧
    (openat_fill tSh oW).dirfd = 3 ∧
    (openat_fill tSh oW).flags = 0 ∧
    (openat_fill tSh oW).path =
      [99, 111, 110, 102, 105, 103, 46, 106, 115, 111, 110] := by
  have h := C8_openat_records_raw_args tSh oW
  refine ⟨h.1, h.2.1, by decide, by decide, ?_⟩
  rw [h.2.2.2.2.2.2 [99, 111, 110, 102, 105, 103, 46, 106, 115, 111, 110]
    rfl (by decide)]
  decide

/-- C9: every bounded string copy into a 256-byte buffer stores at most 255
content bytes (so content plus terminator never exceeds the buffer), the
stored content is a prefix of the source string, and every published exec
and openat record obeys these bounds for `comm`, `filename` and `path`. -/
theorem C9_bounded_copies_truncate (src : List Nat) (t : TaskCtx)
    (e : ExecCtx) (o : OpenatCtx) (r : Bool) :
    (str_read_val MAX_COMM_LEN src).length < MAX_COMM_LEN ∧
    (str_read_val MAX_COMM_LEN src ++ [0]).length ≤ MAX_COMM_LEN ∧
    (∃ rest, str_read_val MAX_COMM_LEN src ++ rest = strUpToNul src) ∧
    (∀ ev, (handle_exec t e r).published = some ev →
      ev.comm.length < MAX_COMM_LEN ∧
      ev.filename.length < MAX_FILENAME_LEN) ∧
    (∀ ev, (handle_openat t o r).published = some ev →
      ev.path.length < MAX_PATH_LEN) := by
  have h0 : (0 : Nat) < MAX_COMM_LEN := by decide
  refine ⟨str_read_val_length_lt _ _ h0, ?_, ?_, ?_, ?_⟩
  · have hb := str_read_val_length_lt MAX_COMM_LEN src h0
    rw [List.length_append, List.length_singleton]
    revert hb
    rw [MAX_COMM_LEN]
    omega
  · exact ⟨(strUpToNul src).drop (MAX_COMM_LEN - 1),
      List.take_append_drop _ _⟩
  · intro ev hev
    have h2 : exec_fill t e = ev := by
      unfold handle_exec at hev
      by_cases hr : (!r) = true
      · rw [if_pos hr] at hev
        simp at hev
      · rw [if_neg hr] at hev
        simpa using hev
    subst h2
    exact ⟨str_read_val_length_lt _ _ h0,
      str_read_user_length_lt _ _ (by decide)⟩
  · intro ev hev
    have h2 : openat_fill t o = ev := by
      unfold handle_openat at hev
      by_cases hr : (!r) = true
      · rw [if_pos hr] at hev
        simp at hev
      · rw [if_neg hr] at hev
        simpa using hev
    subst h2
    show (if u64 o.arg1 = 0 then []
      else str_read_user MAX_PATH_LEN o.path_read).length < MAX_PATH_LEN
    by_cases h3 : u64 o.arg1 = 0
    · rw [if_pos h3]
      decide
    · rw [if_neg h3]
      exact str_read_user_length_lt _ _ (by decide)

set_option maxRecDepth 4000 in
/-- C9 witness: a 300-byte source (all bytes 65) is truncated to exactly 255
stored bytes, and the concrete exec and openat records built from it stay
within their buffer bounds. -/
theorem C9_witness :
    (str_read_val MAX_COMM_LEN src300).length < MAX_COMM_LEN ∧
    (str_read_val MAX_COMM_LEN src300 ++ [0]).length ≤ MAX_COMM_LEN ∧
    (str_read_val MAX_COMM_LEN src300).length = 255 ∧
    (exec_fill tSh ⟨some src300⟩).filename.length < MAX_FILENAME_LEN ∧
    (openat_fill tSh ⟨3, 5, 0, some src300⟩).path.length < MAX_PATH_LEN := by
  have h := C9_bounded_copies_truncate src300 tSh ⟨some src300⟩
    ⟨3, 5, 0, some src300⟩ true
  refine ⟨h.1, h.2.1, by decide, ?_, ?_⟩
  · exact (h.2.2.2.1 (exec_fill tSh ⟨some src300⟩) rfl).2
  · exact h.2.2.2.2 (openat_fill tSh ⟨3, 5, 0, some src300⟩) rfl

/-- C10: when the sockaddr pointer in the connect syscall arguments is NULL,
`handle_connect` returns 0 immediately, reserving no slot and publishing
nothing. -/
theorem C10_null_sockaddr_early_return (t : TaskCtx) (c : ConnectCtx)
    (r : Bool) (h : u64 c.addr_ptr = 0) :
    handle_connect t c r = ⟨0, false, none⟩ := by
  unfold handle_connect
  rw [if_pos h]

/-- C10 witness: a connect with a NULL sockaddr pointer yields return value 0,
no reservation and no publication. -/
theorem C10_witness : handle_connect tSh cNullW true = ⟨0, false, none⟩ :=
  C10_null_sockaddr_early_return tSh cNullW true (by decide)
